import Mathlib

/-!
Verification of the stream-alert engine (cog.py, settings.py, streamalerts/data.py):
a shallow embedding of the presence poller, alert dispatcher, alert resolver and
template formatter, with theorems settling the specified properties.

Durable rows are modelled after the schemas in streamalerts/data.py; the database
is a list of rows, and fetch_where is List.filter (rows in insertion order).
Times are epoch seconds (Nat); nullable columns are Option.
-/

namespace StreamAlerts

/-- Row of the streamers table (data.py, Streamer). -/
structure Streamer where
  userid : Nat
  login_name : String
  display_name : String
  deriving Repr, DecidableEq

/-- Row of the alert_channels table (data.py, AlertChannel): one subscription.
The live_message / end_message columns are nullable TEXT holding the JSON
message template; none = unset. -/
structure AlertChannel where
  subscriptionid : Nat
  guildid : Nat
  channelid : Nat
  streamerid : Nat
  created_by : Nat
  paused : Bool
  end_delete : Bool
  live_message : Option String
  end_message : Option String
  deriving Repr, DecidableEq

/-- Row of the streams table (data.py, Stream); end_at = none means the stream is open. -/
structure Stream where
  streamid : Nat
  streamerid : Nat
  start_at : Nat
  twitch_stream_id : Nat
  game_name : String
  title : String
  end_at : Option Nat
  deriving Repr, DecidableEq

/-- Row of the stream_alerts table (data.py, StreamAlert); resolved_at = none means open. -/
structure StreamAlert where
  alertid : Nat
  streamid : Nat
  subscriptionid : Nat
  sent_at : Nat
  messageid : Nat
  resolved_at : Option Nat
  deriving Repr, DecidableEq

/-! ## The poll cycle (cog.py, AlertCog.poll_live)

One iteration of the `while self.polling` loop.  The twitch get_streams response
is modelled by an oracle `api : Nat → Option LiveInfo`: for each requested id,
either its live-stream info or none; the response only ever covers the ids of the
requested block. -/

/-- One entry of the twitch get_streams response. -/
structure LiveInfo where
  user_id : Nat
  started_at : Nat
  id : Nat
  game_name : String
  title : String
  deriving Repr, DecidableEq

/-- Fuel-driven slicing loop behind `blocksOf`; the fuel only bounds the
recursion depth and is set to the list length, which each step strictly
decreases, so it never runs out. -/
def blocksOfFuel : Nat → List α → List (List α)
  | _, [] => []
  | 0, _ :: _ => []
  | fuel + 1, a :: rest => ((a :: rest).take 100) :: blocksOfFuel fuel ((a :: rest).drop 100)

/-- `blocks = [to_request[i:i+100] for i in range(0, len(to_request), 100)]`. -/
def blocksOf (l : List α) : List (List α) :=
  blocksOfFuel l.length l

/-- Outcome of one poll cycle. -/
structure PollResult where
  /-- The selected block of (at most 100) streamer ids queried this cycle. -/
  block : List Nat
  /-- streamerids that transitioned live this cycle (`started`). -/
  started : List Nat
  /-- streamerids computed as ended this cycle (`ended`). -/
  ended : List Nat
  /-- The new rotating block index. -/
  block_i : Nat
  /-- live_streams cache after the cycle (streamerid to open Stream row). -/
  live_streams : List (Nat × Stream)
  /-- streams table after the cycle. -/
  streams : List Stream
  /-- Stream rows handed to the forked on_stream_start tasks this cycle. -/
  dispatched : List Stream
  /-- Stream rows handed to the forked on_stream_end tasks this cycle. -/
  resolved : List Stream
  deriving Repr, DecidableEq

/-- The `for streamerid in started` loop: create a Stream row from the response
info, insert it into the live cache, and fork the start event. Fresh streamids
are drawn from the counter `nextid`. -/
def processStarted (now nextid : Nat) (streaming : List (Nat × LiveInfo))
    (cache : List (Nat × Stream)) (streams dispatched : List Stream) :
    List Nat → (List (Nat × Stream) × List Stream × List Stream × Nat)
  | [] => (cache, streams, dispatched, nextid)
  | sid :: rest =>
    match (streaming.filter (fun p => p.1 = sid)).head? with
    | none => processStarted now nextid streaming cache streams dispatched rest
    | some (_, info) =>
      let row : Stream :=
        { streamid := nextid, streamerid := info.user_id, start_at := info.started_at,
          twitch_stream_id := info.id, game_name := info.game_name,
          title := info.title, end_at := none }
      processStarted now (nextid + 1) streaming
        (cache ++ [(sid, row)]) (streams ++ [row]) (dispatched ++ [row]) rest

/-- The `for streamerid in ended` loop: pop the cache entry, set end_at = now on
its row in the streams table, and fork the end event. -/
def processEnded (now : Nat) (cache : List (Nat × Stream))
    (streams resolved : List Stream) :
    List Nat → (List (Nat × Stream) × List Stream × List Stream)
  | [] => (cache, streams, resolved)
  | sid :: rest =>
    match (cache.filter (fun p => p.1 = sid)).head? with
    | none => processEnded now cache streams resolved rest
    | some (_, row) =>
      let closed := { row with end_at := some now }
      processEnded now (cache.filter (fun p => p.1 ≠ sid))
        (streams.map (fun s => if s.streamid = row.streamid then closed else s))
        (resolved ++ [closed]) rest

/-- The block selected this cycle: `block_i += 1; block_i %= len(blocks); block = blocks[block_i]`. -/
def pageBlock (watching : List Nat) (block_i : Nat) : List Nat :=
  let blocks := blocksOf watching
  blocks.getD ((block_i + 1) % blocks.length) []

/-- The `streaming` dict built from the get_streams response for the block. -/
def pollStreaming (block : List Nat) (api : Nat → Option LiveInfo) :
    List (Nat × LiveInfo) :=
  block.filterMap (fun sid => (api sid).map (fun info => (sid, info)))

/-- `started = set(streaming.keys()).difference(self.live_streams.keys())`. -/
def pollStarted (streaming : List (Nat × LiveInfo)) (live_streams : List (Nat × Stream)) :
    List Nat :=
  (streaming.map (fun p => p.1)).filter
    (fun sid => ¬ (live_streams.map (fun p => p.1)).contains sid)

/-- `ended = set(self.live_streams.keys()).difference(streaming.keys())`:
the whole cache is diffed against the keys of the single-block response. -/
def pollEnded (streaming : List (Nat × LiveInfo)) (live_streams : List (Nat × Stream)) :
    List Nat :=
  (live_streams.map (fun p => p.1)).filter
    (fun sid => ¬ (streaming.map (fun p => p.1)).contains sid)

/-- One iteration of AlertCog.poll_live (cog.py lines 104-142), after the sleep:
none when the watch list is empty (the `continue`). -/
def poll_live_cycle (watching : List Nat) (block_i : Nat)
    (live_streams : List (Nat × Stream)) (streams : List Stream)
    (api : Nat → Option LiveInfo) (now nextid : Nat) : Option PollResult :=
  let to_request := watching
  if to_request.isEmpty then none else
  let block := pageBlock to_request block_i
  let streaming := pollStreaming block api
  let started := pollStarted streaming live_streams
  let ended := pollEnded streaming live_streams
  let r₁ := processStarted now nextid streaming live_streams streams [] started
  let r₂ := processEnded now r₁.1 r₁.2.1 [] ended
  some { block := block, started := started, ended := ended,
         block_i := (block_i + 1) % (blocksOf to_request).length,
         live_streams := r₂.1, streams := r₂.2.1,
         dispatched := r₁.2.2.1, resolved := r₂.2.2 }

/-- Keys of the streaming response are drawn from the requested block. -/
theorem pollStreaming_keys_subset (block : List Nat) (api : Nat → Option LiveInfo)
    (sid : Nat) (h : sid ∈ (pollStreaming block api).map (fun p => p.1)) :
    sid ∈ block := by
  simp only [pollStreaming, List.mem_map, List.mem_filterMap] at h
  obtain ⟨⟨k, info⟩, ⟨a, ha, hmap⟩, rfl⟩ := h
  rw [Option.map_eq_some'] at hmap
  obtain ⟨i, _, hi⟩ := hmap
  cases hi
  exact ha

/-- Membership in the computed ended set. -/
theorem mem_pollEnded (streaming : List (Nat × LiveInfo))
    (live_streams : List (Nat × Stream)) (sid : Nat)
    (hlive : sid ∈ live_streams.map (fun p => p.1))
    (hnot : sid ∉ (streaming.map (fun p => p.1))) :
    sid ∈ pollEnded streaming live_streams := by
  simp only [pollEnded, List.mem_filter, decide_eq_true_eq, List.contains, List.elem_iff]
  exact ⟨hlive, by simpa using hnot⟩

/-- C1: in every poll cycle with a non-empty watch set (here spanning more than
one page), `ended` is the full live-cache key set minus the keys of the current
block's response, so every streamer in the live cache but outside the selected
block is classified as ended in that cycle. -/
theorem poll_ended_includes_offpage (watching : List Nat) (block_i : Nat)
    (live_streams : List (Nat × Stream)) (streams : List Stream)
    (api : Nat → Option LiveInfo) (now nextid : Nat) (res : PollResult) (sid : Nat)
    (hrun : poll_live_cycle watching block_i live_streams streams api now nextid = some res)
    (hpages : 100 < watching.length)
    (hcached : sid ∈ live_streams.map (fun p => p.1))
    (hoff : sid ∉ res.block) :
    sid ∈ res.ended := by
  have hne : watching.isEmpty = false := by
    cases watching with
    | nil => simp at hpages
    | cons a l => rfl
  simp only [poll_live_cycle, hne, Bool.false_eq_true, if_false] at hrun
  injection hrun with h
  subst h
  exact mem_pollEnded _ _ _ hcached
    (fun hmem => hoff (pollStreaming_keys_subset _ api sid hmem))

/-- Concrete scenario for C1: 101 watched ids (two pages), streamer 5 cached as
live, page [100] selected. -/
def c1Watch : List Nat := List.range 101

/-- The cached open stream of streamer 5 in the C1 scenario. -/
def c1Cache : List (Nat × Stream) :=
  [(5, { streamid := 1, streamerid := 5, start_at := 10, twitch_stream_id := 90,
         game_name := "g", title := "t", end_at := none })]

/-- Result of the C1 scenario poll cycle. -/
def c1Res : PollResult :=
  (poll_live_cycle c1Watch 0 c1Cache [] (fun _ => none) 100 2).getD
    ⟨[], [], [], 0, [], [], [], []⟩

/-- Witness for C1: in the concrete two-page scenario, streamer 5 is off the
selected page yet is classified as ended. -/
theorem poll_ended_includes_offpage_witness : 5 ∈ c1Res.ended :=
  poll_ended_includes_offpage c1Watch 0 c1Cache [] (fun _ => none) 100 2 c1Res 5
    (by rfl) (by decide) (by decide) (by decide)

/-! ## Initialization (cog.py, AlertCog.load_subs) -/

/-- Modelled from the spec: the persistence collaborator's NULL condition with
the not-equal operator (data.conditions, imported by cog.py but defined outside
this repository).  Spec section 6: filter support includes equality and
"is not null", so `end_at != NULL` selects the rows whose end_at is set. -/
def isNotNull (o : Option Nat) : Bool :=
  o.isSome

/-- AlertCog.load_subs (cog.py lines 61-85): build (watching, live_streams)
from the durable tables.

Line 68 of the source, `to_watch.union(...)`, calls Python set.union, which
returns a new set without mutating to_watch; the result is not assigned, so the
statement has no effect, which the embedding reproduces by leaving to_watch as
the subscription streamerids only. -/
def load_subs (subs : List AlertChannel) (streams : List Stream)
    (streamers : List Streamer) : List (Nat × Streamer) × List (Nat × Stream) :=
  let to_watch := (subs.map (fun s => s.streamerid)).dedup
  let live_streams := streams.filter (fun s => isNotNull s.end_at)
  let watching :=
    if to_watch.isEmpty then []
    else (streamers.filter (fun st => to_watch.contains st.userid)).map
      (fun st => (st.userid, st))
  (watching, live_streams.map (fun s => (s.streamerid, s)))

/-- The open (end_at = null) stream of streamer 42 in the C2 scenario. -/
def c2Open : Stream :=
  { streamid := 1, streamerid := 42, start_at := 10, twitch_stream_id := 500,
    game_name := "g", title := "t", end_at := none }

/-- A closed (end_at set) stream of streamer 7 in the C2 scenario. -/
def c2Closed : Stream :=
  { streamid := 2, streamerid := 7, start_at := 20, twitch_stream_id := 501,
    game_name := "h", title := "u", end_at := some 30 }

/-- C2: at startup, with no subscriptions, one open stream (streamer 42) and one
closed stream (streamer 7), load_subs leaves the watch map empty (the open
stream's streamer is not recovered, because the set.union result is discarded)
and populates the live cache with the closed stream instead of the open one
(because the fetch filter is "end_at is not null"). -/
theorem load_subs_failing_input :
    load_subs [] [c2Open, c2Closed]
        [⟨42, "alice", "Alice"⟩, ⟨7, "bob", "Bob"⟩]
      = ([], [(7, c2Closed)]) := by
  decide

/-! ## Alert dispatch (cog.py, AlertCog.on_stream_start and AlertCog.sub_alert) -/

/-- Class of an exception escaping per-subscription processing into the
dispatch loop's handlers: discord.HTTPException (the classified delivery
failure) or anything else. -/
inductive ExcKind
  | classified
  | unclassified
  deriving Repr, DecidableEq

/-- Side effects at the messaging collaborator: channel.send, message.delete,
message.edit.  An effect records the attempted call, whether or not it fails. -/
inductive MsgEffect
  | send (channelid : Nat)
  | delete (messageid : Nat)
  | edit (messageid : Nat)
  deriving Repr, DecidableEq

/-- External environment of one sub_alert call: the Discord channel cache and
permissions, the outcome of channel.send (some messageid on success, none when
it raises discord.HTTPException, which sub_alert catches), and `raiseExc`,
injecting an exception of the given class out of the collaborator calls of the
per-subscription logic, which sub_alert does not catch. -/
structure DispatchEnv where
  channelOk : Bool
  canSend : Bool
  canEmbed : Bool
  sendMessageid : Option Nat
  raiseExc : Option ExcKind
  deriving Repr, DecidableEq

/-- The non-raising body of AlertCog.sub_alert (cog.py lines 178-245):
returns the alerts table, the message effects, and the next fresh alertid. -/
def sub_alert_body (env : DispatchEnv) (streamers : List Streamer)
    (sub : AlertChannel) (stream : Stream) (alerts : List StreamAlert)
    (now nextalertid : Nat) : List StreamAlert × List MsgEffect × Nat :=
  if !env.channelOk then
    -- subscription channel gone: subscription_error, return
    (alerts, [], nextalertid)
  else if !(env.canSend && env.canEmbed) then
    -- missing send/embed permissions: subscription_error, return
    (alerts, [], nextalertid)
  else
    match streamers.find? (fun st => st.userid == stream.streamerid) with
    | none =>
      -- streamer deleted concurrently: quiet skip
      (alerts, [], nextalertid)
    | some _streamer =>
      if sub.paused then
        -- paused: skip without sending
        (alerts, [], nextalertid)
      else
        match env.sendMessageid with
        | none =>
          -- channel.send raised discord.HTTPException: caught, subscription_error
          (alerts, [MsgEffect.send sub.channelid], nextalertid)
        | some mid =>
          (alerts ++ [{ alertid := nextalertid, streamid := stream.streamid,
                        subscriptionid := sub.subscriptionid, sent_at := now,
                        messageid := mid, resolved_at := none }],
           [MsgEffect.send sub.channelid], nextalertid + 1)

/-- AlertCog.sub_alert as seen by the caller: either its result, or the
exception the environment injected (sub_alert installs no handler for it). -/
def sub_alert (env : DispatchEnv) (streamers : List Streamer)
    (sub : AlertChannel) (stream : Stream) (alerts : List StreamAlert)
    (now nextalertid : Nat) :
    Except ExcKind (List StreamAlert × List MsgEffect × Nat) :=
  match env.raiseExc with
  | some k => .error k
  | none => .ok (sub_alert_body env streamers sub stream alerts now nextalertid)

/-- Outcome of one on_stream_start dispatch batch. -/
structure DispatchBatchResult where
  alerts : List StreamAlert
  effects : List MsgEffect
  /-- subscriptionids whose sub_alert call was entered. -/
  handled : List Nat
  nextalertid : Nat
  /-- true when an unclassified exception was re-raised out of the loop. -/
  aborted : Bool
  deriving Repr, DecidableEq

/-- The per-subscription loop of AlertCog.on_stream_start (cog.py lines
144-165): try sub_alert; on discord.HTTPException log and continue with the
next subscription; on any other exception log and re-raise, abandoning the
rest of the batch. -/
def on_stream_start (envf : AlertChannel → DispatchEnv) (streamers : List Streamer)
    (stream : Stream) (alerts : List StreamAlert) (now nextalertid : Nat) :
    List AlertChannel → DispatchBatchResult
  | [] => { alerts := alerts, effects := [], handled := [],
            nextalertid := nextalertid, aborted := false }
  | sub :: rest =>
    match sub_alert (envf sub) streamers sub stream alerts now nextalertid with
    | .ok res =>
      let r := on_stream_start envf streamers stream res.1 now res.2.2 rest
      { r with effects := res.2.1 ++ r.effects,
               handled := sub.subscriptionid :: r.handled }
    | .error .classified =>
      let r := on_stream_start envf streamers stream alerts now nextalertid rest
      { r with handled := sub.subscriptionid :: r.handled }
    | .error .unclassified =>
      { alerts := alerts, effects := [], handled := [sub.subscriptionid],
        nextalertid := nextalertid, aborted := true }

/-- If no subscription's processing raises an unclassified exception, the
dispatch loop reaches every subscription (classified failures included) and
does not abort. -/
theorem onStart_isolates (envf : AlertChannel → DispatchEnv)
    (streamers : List Streamer) (stream : Stream) (now : Nat) :
    ∀ (subs : List AlertChannel) (alerts : List StreamAlert) (nid : Nat),
      (∀ s ∈ subs, (envf s).raiseExc ≠ some ExcKind.unclassified) →
      (on_stream_start envf streamers stream alerts now nid subs).handled
        = subs.map (fun s => s.subscriptionid) ∧
      (on_stream_start envf streamers stream alerts now nid subs).aborted = false := by
  intro subs
  induction subs with
  | nil => intro alerts nid _; simp [on_stream_start]
  | cons sub rest ih =>
    intro alerts nid h
    have hsub : (envf sub).raiseExc ≠ some ExcKind.unclassified :=
      h sub (List.mem_cons_self _ _)
    have hrest : ∀ s ∈ rest, (envf s).raiseExc ≠ some ExcKind.unclassified :=
      fun s hs => h s (List.mem_cons_of_mem _ hs)
    cases hexc : (envf sub).raiseExc with
    | none =>
      have hr := ih (sub_alert_body (envf sub) streamers sub stream alerts now nid).1
        (sub_alert_body (envf sub) streamers sub stream alerts now nid).2.2 hrest
      simp only [on_stream_start, sub_alert, hexc, List.map_cons]
      exact ⟨by rw [hr.1], hr.2⟩
    | some k =>
      cases k with
      | classified =>
        have hr := ih alerts nid hrest
        simp only [on_stream_start, sub_alert, hexc, List.map_cons]
        exact ⟨by rw [hr.1], hr.2⟩
      | unclassified => exact absurd hexc hsub

/-- An unclassified exception stops the dispatch loop at the raising
subscription: the ones before it (including classified failures) were
processed, the ones after it are not reached. -/
theorem onStart_aborts (envf : AlertChannel → DispatchEnv)
    (streamers : List Streamer) (stream : Stream) (now : Nat)
    (bad : AlertChannel)
    (hbad : (envf bad).raiseExc = some ExcKind.unclassified) :
    ∀ (pre : List AlertChannel) (post : List AlertChannel)
      (alerts : List StreamAlert) (nid : Nat),
      (∀ s ∈ pre, (envf s).raiseExc ≠ some ExcKind.unclassified) →
      (on_stream_start envf streamers stream alerts now nid
          (pre ++ bad :: post)).handled
        = pre.map (fun s => s.subscriptionid) ++ [bad.subscriptionid] ∧
      (on_stream_start envf streamers stream alerts now nid
          (pre ++ bad :: post)).aborted = true := by
  intro pre
  induction pre with
  | nil =>
    intro post alerts nid _
    simp [on_stream_start, sub_alert, hbad]
  | cons p pre ih =>
    intro post alerts nid h
    have hp : (envf p).raiseExc ≠ some ExcKind.unclassified :=
      h p (List.mem_cons_self _ _)
    have hpre : ∀ s ∈ pre, (envf s).raiseExc ≠ some ExcKind.unclassified :=
      fun s hs => h s (List.mem_cons_of_mem _ hs)
    cases hexc : (envf p).raiseExc with
    | none =>
      have hr := ih post (sub_alert_body (envf p) streamers p stream alerts now nid).1
        (sub_alert_body (envf p) streamers p stream alerts now nid).2.2 hpre
      simp only [List.cons_append, on_stream_start, sub_alert, hexc, List.map_cons,
        List.append_eq]
      exact ⟨by rw [hr.1], hr.2⟩
    | some k =>
      cases k with
      | classified =>
        have hr := ih post alerts nid hpre
        simp only [List.cons_append, on_stream_start, sub_alert, hexc, List.map_cons,
          List.append_eq]
        exact ⟨by rw [hr.1], hr.2⟩
      | unclassified => exact absurd hexc hp

/-- C6: during dispatch of one start-transition, a classified delivery-failure
exception (discord.HTTPException) raised while handling one subscription is
caught and isolated, so the remaining subscriptions are still processed; any
unclassified exception is re-raised and aborts processing of the remaining
subscriptions in that batch. -/
theorem dispatch_exception_policy :
    (∀ (envf : AlertChannel → DispatchEnv) (streamers : List Streamer)
        (stream : Stream) (now : Nat) (subs : List AlertChannel)
        (alerts : List StreamAlert) (nid : Nat),
      (∀ s ∈ subs, (envf s).raiseExc ≠ some ExcKind.unclassified) →
      (on_stream_start envf streamers stream alerts now nid subs).handled
        = subs.map (fun s => s.subscriptionid) ∧
      (on_stream_start envf streamers stream alerts now nid subs).aborted = false) ∧
    (∀ (envf : AlertChannel → DispatchEnv) (streamers : List Streamer)
        (stream : Stream) (now : Nat) (bad : AlertChannel)
        (pre post : List AlertChannel) (alerts : List StreamAlert) (nid : Nat),
      (∀ s ∈ pre, (envf s).raiseExc ≠ some ExcKind.unclassified) →
      (envf bad).raiseExc = some ExcKind.unclassified →
      (on_stream_start envf streamers stream alerts now nid
          (pre ++ bad :: post)).handled
        = pre.map (fun s => s.subscriptionid) ++ [bad.subscriptionid] ∧
      (on_stream_start envf streamers stream alerts now nid
          (pre ++ bad :: post)).aborted = true) :=
  ⟨fun envf streamers stream now subs alerts nid h =>
      onStart_isolates envf streamers stream now subs alerts nid h,
   fun envf streamers stream now bad pre post alerts nid h hbad =>
      onStart_aborts envf streamers stream now bad hbad pre post alerts nid h⟩

/-- Subscription rows for the C6 scenario. -/
def c6Sub (i : Nat) : AlertChannel :=
  { subscriptionid := i, guildid := 1, channelid := 100 + i, streamerid := 42,
    created_by := 9, paused := false, end_delete := false,
    live_message := none, end_message := none }

/-- Environments for the C6 scenario: subscription 1 raises a classified
delivery failure, subscription 3 raises an unclassified exception,
everything else succeeds. -/
def c6Envf : AlertChannel → DispatchEnv := fun sub =>
  if sub.subscriptionid = 3 then
    ⟨true, true, true, some 10, some ExcKind.unclassified⟩
  else if sub.subscriptionid = 1 then
    ⟨true, true, true, some 11, some ExcKind.classified⟩
  else
    ⟨true, true, true, some 12, none⟩

/-- The live stream row of the C6 scenario. -/
def c6Stream : Stream :=
  { streamid := 8, streamerid := 42, start_at := 30, twitch_stream_id := 700,
    game_name := "g", title := "t", end_at := none }

/-- Witness for C6: with subscriptions [1, 2] (1 raises classified) every
subscription is handled without abort; inserting subscription 3 (unclassified)
between them stops the batch right after 3. -/
theorem dispatch_exception_policy_witness :
    ((on_stream_start c6Envf [] c6Stream [] 50 1 [c6Sub 1, c6Sub 2]).handled
        = [c6Sub 1, c6Sub 2].map (fun s => s.subscriptionid) ∧
      (on_stream_start c6Envf [] c6Stream [] 50 1 [c6Sub 1, c6Sub 2]).aborted = false) ∧
    ((on_stream_start c6Envf [] c6Stream [] 50 1
          ([c6Sub 1] ++ c6Sub 3 :: [c6Sub 2])).handled
        = [c6Sub 1].map (fun s => s.subscriptionid) ++ [(c6Sub 3).subscriptionid] ∧
      (on_stream_start c6Envf [] c6Stream [] 50 1
          ([c6Sub 1] ++ c6Sub 3 :: [c6Sub 2])).aborted = true) :=
  ⟨dispatch_exception_policy.1 c6Envf [] c6Stream 50 [c6Sub 1, c6Sub 2] [] 1
      (by decide),
   dispatch_exception_policy.2 c6Envf [] c6Stream 50 (c6Sub 3) [c6Sub 1] [c6Sub 2] [] 1
      (by decide) (by decide)⟩

/-- The (stream, subscription) pair predicate on alert rows. -/
def pairP (streamid subscriptionid : Nat) (a : StreamAlert) : Bool :=
  a.streamid == streamid && a.subscriptionid == subscriptionid

/-- An all-success dispatch environment. -/
def okEnv : DispatchEnv :=
  { channelOk := true, canSend := true, canEmbed := true,
    sendMessageid := some 77, raiseExc := none }

/-- Counterexample to C3: sub_alert performs no existing-alert check, so a
second dispatch invocation for the same stream creates a second Alert row for
the (stream 8, subscription 2) pair that already has one. -/
theorem second_dispatch_duplicates_alert :
    ((on_stream_start (fun _ => okEnv) [⟨42, "alice", "Alice"⟩] c6Stream
        (on_stream_start (fun _ => okEnv) [⟨42, "alice", "Alice"⟩] c6Stream
          [] 50 1 [c6Sub 2]).alerts
        60 2 [c6Sub 2]).alerts.countP (pairP 8 2)) = 2 := by
  decide

/-- One sub_alert call appends at most one row, and only for its own pair. -/
theorem sub_alert_body_delta (env : DispatchEnv) (streamers : List Streamer)
    (sub : AlertChannel) (stream : Stream) (alerts : List StreamAlert)
    (now nid : Nat) :
    ∃ d, (sub_alert_body env streamers sub stream alerts now nid).1 = alerts ++ d ∧
      d.length ≤ 1 ∧
      ∀ a ∈ d, a.streamid = stream.streamid ∧
        a.subscriptionid = sub.subscriptionid ∧ a.alertid = nid := by
  unfold sub_alert_body
  repeat' split
  all_goals
    first
    | exact ⟨[], (List.append_nil alerts).symm, by simp, by simp⟩
    | (refine ⟨[_], rfl, ?_, ?_⟩ <;> simp)

/-- One on_stream_start batch appends rows only for this stream's pairs, at
most one per subscription, when the fetched subscriptionids are distinct. -/
theorem onStart_delta (envf : AlertChannel → DispatchEnv)
    (streamers : List Streamer) (stream : Stream) (now : Nat) :
    ∀ (subs : List AlertChannel) (alerts : List StreamAlert) (nid : Nat),
      (subs.map (fun s => s.subscriptionid)).Nodup →
      ∃ d, (on_stream_start envf streamers stream alerts now nid subs).alerts
          = alerts ++ d ∧
        (∀ a ∈ d, a.subscriptionid ∈ subs.map (fun s => s.subscriptionid)) ∧
        ∀ sid, d.countP (pairP stream.streamid sid) ≤ 1 := by
  intro subs
  induction subs with
  | nil => intro alerts nid _; exact ⟨[], by simp [on_stream_start], by simp, by simp⟩
  | cons sub rest ih =>
    intro alerts nid hnodup
    rw [List.map_cons, List.nodup_cons] at hnodup
    obtain ⟨hnotin, hnodup'⟩ := hnodup
    cases hexc : (envf sub).raiseExc with
    | none =>
      obtain ⟨d₀, hd₀, hlen₀, hmem₀⟩ :=
        sub_alert_body_delta (envf sub) streamers sub stream alerts now nid
      obtain ⟨d₁, hd₁, hmem₁, hcnt₁⟩ :=
        ih (sub_alert_body (envf sub) streamers sub stream alerts now nid).1
          (sub_alert_body (envf sub) streamers sub stream alerts now nid).2.2 hnodup'
      refine ⟨d₀ ++ d₁, ?_, ?_, ?_⟩
      · simp only [on_stream_start, sub_alert, hexc]
        rw [hd₁, hd₀, List.append_assoc]
      · intro a ha
        rcases List.mem_append.mp ha with h0 | h1
        · simp only [List.map_cons, List.mem_cons]
          exact Or.inl (hmem₀ a h0).2.1
        · simp only [List.map_cons, List.mem_cons]
          exact Or.inr (hmem₁ a h1)
      · intro sid
        rw [List.countP_append]
        by_cases hsid : sub.subscriptionid = sid
        · have h1 : d₁.countP (pairP stream.streamid sid) = 0 := by
            rw [List.countP_eq_zero]
            intro a ha
            have := hmem₁ a ha
            simp only [pairP, Bool.and_eq_true, beq_iff_eq]
            rintro ⟨-, rfl⟩
            exact hnotin (hsid ▸ this)
          have h0 : d₀.countP (pairP stream.streamid sid) ≤ 1 :=
            le_trans (List.countP_le_length _) hlen₀
          omega
        · have h0 : d₀.countP (pairP stream.streamid sid) = 0 := by
            rw [List.countP_eq_zero]
            intro a ha
            simp only [pairP, Bool.and_eq_true, beq_iff_eq]
            rintro ⟨-, h2⟩
            exact hsid (((hmem₀ a ha).2.1).symm.trans h2)
          have h1 := hcnt₁ sid
          omega
    | some k =>
      cases k with
      | classified =>
        obtain ⟨d₁, hd₁, hmem₁, hcnt₁⟩ := ih alerts nid hnodup'
        refine ⟨d₁, ?_, ?_, hcnt₁⟩
        · simp only [on_stream_start, sub_alert, hexc]
          exact hd₁
        · intro a ha
          simp only [List.map_cons, List.mem_cons]
          exact Or.inr (hmem₁ a ha)
      | unclassified =>
        refine ⟨[], ?_, by simp, by simp⟩
        simp [on_stream_start, sub_alert, hexc]

/-- C3 amended: a single dispatch invocation creates at most one Alert row per
(stream, subscription) pair — the pair's row count grows by at most one per
invocation — but sub_alert performs no existing-alert check, so repeated
dispatch invocations for the same stream accumulate rows instead of keeping at
most one. -/
theorem dispatch_adds_at_most_one_alert_per_pair
    (envf : AlertChannel → DispatchEnv) (streamers : List Streamer)
    (stream : Stream) (now : Nat) (subs : List AlertChannel)
    (alerts : List StreamAlert) (nid sid : Nat)
    (hnodup : (subs.map (fun s => s.subscriptionid)).Nodup) :
    ((on_stream_start envf streamers stream alerts now nid subs).alerts.countP
        (pairP stream.streamid sid))
      ≤ alerts.countP (pairP stream.streamid sid) + 1 := by
  obtain ⟨d, heq, -, hcnt⟩ := onStart_delta envf streamers stream now subs alerts nid hnodup
  rw [heq, List.countP_append]
  have := hcnt sid
  omega

/-- Witness for C3 (amended): one dispatch over subscription 2 on an empty
alerts table leaves at most one row for the (8, 2) pair. -/
theorem dispatch_adds_at_most_one_alert_per_pair_witness :
    ((on_stream_start (fun _ => okEnv) [⟨42, "alice", "Alice"⟩] c6Stream
        [] 50 1 [c6Sub 2]).alerts.countP (pairP (c6Stream).streamid 2))
      ≤ ([] : List StreamAlert).countP (pairP (c6Stream).streamid 2) + 1 :=
  dispatch_adds_at_most_one_alert_per_pair (fun _ => okEnv) [⟨42, "alice", "Alice"⟩]
    c6Stream 50 [c6Sub 2] [] 1 2 (by decide)

/-- The started loop only appends to the cache and the dispatched list. -/
theorem processStarted_mono (now : Nat) (streaming : List (Nat × LiveInfo)) :
    ∀ (l : List Nat) (nid : Nat) (cache : List (Nat × Stream))
      (streams dispatched : List Stream),
      (∀ e ∈ cache, e ∈ (processStarted now nid streaming cache streams dispatched l).1) ∧
      (∀ r ∈ dispatched,
        r ∈ (processStarted now nid streaming cache streams dispatched l).2.2.1) := by
  intro l
  induction l with
  | nil => intro nid cache streams dispatched; simp [processStarted]
  | cons x rest ih =>
    intro nid cache streams dispatched
    cases hh : (streaming.filter (fun p => p.1 = x)).head? with
    | none =>
      simp only [processStarted, hh]
      exact ih nid cache streams dispatched
    | some kv =>
      obtain ⟨k, info⟩ := kv
      simp only [processStarted, hh]
      constructor
      · intro e he
        exact (ih _ _ _ _).1 e (List.mem_append_left _ he)
      · intro r hr
        exact (ih _ _ _ _).2 r (List.mem_append_left _ hr)

/-- If sid is in the started list and the response has an entry for it, the
started loop creates an open Stream row for it, caches it under sid and hands
it to the forked dispatch task. -/
theorem processStarted_adds (now : Nat) (streaming : List (Nat × LiveInfo))
    (sid : Nat) (info : LiveInfo) :
    ∀ (l : List Nat) (nid : Nat) (cache : List (Nat × Stream))
      (streams dispatched : List Stream),
      sid ∈ l →
      (streaming.filter (fun p => p.1 = sid)).head? = some (sid, info) →
      ∃ row, (sid, row) ∈ (processStarted now nid streaming cache streams dispatched l).1 ∧
        row ∈ (processStarted now nid streaming cache streams dispatched l).2.2.1 ∧
        row.end_at = none := by
  intro l
  induction l with
  | nil => intro nid cache streams dispatched h; exact absurd h (List.not_mem_nil sid)
  | cons x rest ih =>
    intro nid cache streams dispatched hmem hhead
    by_cases hx : x = sid
    · subst hx
      simp only [processStarted, hhead]
      refine ⟨{ streamid := nid, streamerid := info.user_id, start_at := info.started_at,
                twitch_stream_id := info.id, game_name := info.game_name,
                title := info.title, end_at := none }, ?_, ?_, rfl⟩
      · exact (processStarted_mono now streaming rest _ _ _ _).1 _
          (List.mem_append_right _ (List.mem_singleton_self _))
      · exact (processStarted_mono now streaming rest _ _ _ _).2 _
          (List.mem_append_right _ (List.mem_singleton_self _))
    · have hrest : sid ∈ rest := by
        rcases List.mem_cons.mp hmem with h | h
        · exact absurd h.symm hx
        · exact h
      cases hh : (streaming.filter (fun p => p.1 = x)).head? with
      | none =>
        simp only [processStarted, hh]
        exact ih nid cache streams dispatched hrest hhead
      | some kv =>
        obtain ⟨k, i⟩ := kv
        simp only [processStarted, hh]
        exact ih _ _ _ _ hrest hhead

/-- The ended loop never removes a cache entry whose key is not in its list. -/
theorem processEnded_preserves (now : Nat) (sid : Nat) (row : Stream) :
    ∀ (l : List Nat) (cache : List (Nat × Stream)) (streams resolved : List Stream),
      sid ∉ l → (sid, row) ∈ cache →
      (sid, row) ∈ (processEnded now cache streams resolved l).1 := by
  intro l
  induction l with
  | nil => intro cache streams resolved _ hc; simpa [processEnded] using hc
  | cons x rest ih =>
    intro cache streams resolved hnot hc
    have hxs : x ≠ sid := fun h => hnot (h ▸ List.mem_cons_self _ _)
    have hrest : sid ∉ rest := fun h => hnot (List.mem_cons_of_mem _ h)
    cases hh : (cache.filter (fun p => p.1 = x)).head? with
    | none =>
      simp only [processEnded, hh]
      exact ih cache streams resolved hrest hc
    | some kv =>
      obtain ⟨k, r⟩ := kv
      simp only [processEnded, hh]
      refine ih _ _ _ hrest ?_
      rw [List.mem_filter]
      exact ⟨hc, by simpa using fun h => hxs h.symm⟩

/-- A key present among an association list's keys has a first entry, and it
carries that key. -/
theorem filter_fst_head (sid : Nat) :
    ∀ (l : List (Nat × LiveInfo)),
      sid ∈ l.map (fun p => p.1) →
      ∃ info, (l.filter (fun p => p.1 = sid)).head? = some (sid, info) := by
  intro l
  induction l with
  | nil => intro h; simp at h
  | cons kv rest ih =>
    intro h
    obtain ⟨k, v⟩ := kv
    by_cases hk : k = sid
    · subst hk
      refine ⟨v, ?_⟩
      simp [List.filter_cons]
    · have : sid ∈ rest.map (fun p => p.1) := by
        rcases List.mem_map.mp h with ⟨p, hp, hfst⟩
        rcases List.mem_cons.mp hp with h1 | h1
        · subst h1; exact absurd hfst hk
        · exact List.mem_map.mpr ⟨p, h1, hfst⟩
      obtain ⟨info, hinfo⟩ := ih this
      refine ⟨info, ?_⟩
      simpa [List.filter_cons, hk] using hinfo

/-- C7: pause suppresses dispatch, not tracking.  First conjunct: a start
transition always creates an open Stream row, inserts it in the live cache and
forks dispatch for it, independently of any subscription state.  Second
conjunct: sub_alert on a paused subscription returns without sending and
without creating an Alert row. -/
theorem pause_suppresses_dispatch_not_tracking :
    (∀ (watching : List Nat) (block_i : Nat) (live_streams : List (Nat × Stream))
        (streams : List Stream) (api : Nat → Option LiveInfo) (now nextid : Nat)
        (res : PollResult) (sid : Nat),
      poll_live_cycle watching block_i live_streams streams api now nextid = some res →
      sid ∈ res.started →
      ∃ row, (sid, row) ∈ res.live_streams ∧ row ∈ res.dispatched ∧
        row.end_at = none) ∧
    (∀ (env : DispatchEnv) (streamers : List Streamer) (sub : AlertChannel)
        (stream : Stream) (alerts : List StreamAlert) (now nid : Nat),
      env.raiseExc = none → sub.paused = true →
      sub_alert env streamers sub stream alerts now nid = .ok (alerts, [], nid)) := by
  constructor
  · intro watching block_i live_streams streams api now nextid res sid hrun hstart
    have hne : watching.isEmpty = false := by
      cases h : watching.isEmpty with
      | true => rw [poll_live_cycle] at hrun; simp [h] at hrun
      | false => rfl
    simp only [poll_live_cycle, hne, Bool.false_eq_true, if_false] at hrun
    injection hrun with h
    subst h
    have hkeys : sid ∈ (pollStreaming (pageBlock watching block_i) api).map
        (fun p => p.1) := by
      have := List.mem_filter.mp hstart
      exact this.1
    have hnotlive : sid ∉ live_streams.map (fun p => p.1) := by
      have := (List.mem_filter.mp hstart).2
      simp only [decide_eq_true_eq, List.contains, List.elem_iff] at this
      simpa using this
    have hnotended : sid ∉ pollEnded (pollStreaming (pageBlock watching block_i) api)
        live_streams := by
      intro hmem
      exact hnotlive (List.mem_filter.mp hmem).1
    obtain ⟨info, hhead⟩ := filter_fst_head sid _ hkeys
    obtain ⟨row, hc, hd, he⟩ := processStarted_adds now _ sid info _ nextid
      live_streams streams [] hstart hhead
    exact ⟨row, processEnded_preserves now sid row _ _ _ _ hnotended hc, hd, he⟩
  · intro env streamers sub stream alerts now nid hexc hp
    simp only [sub_alert, hexc]
    have hbody : sub_alert_body env streamers sub stream alerts now nid
        = (alerts, [], nid) := by
      unfold sub_alert_body
      repeat' split <;> first | rfl | simp_all
    rw [hbody]

/-- The get_streams response oracle of the C7 scenario: only streamer 42 live. -/
def c7Api : Nat → Option LiveInfo := fun sid =>
  if sid = 42 then some ⟨42, 100, 900, "g", "t"⟩ else none

/-- The C7 poll cycle outcome: one watched streamer, empty cache. -/
def c7Res : PollResult :=
  (poll_live_cycle [42] 0 [] [] c7Api 100 6).getD ⟨[], [], [], 0, [], [], [], []⟩

/-- The paused subscription of the C7 scenario. -/
def c7PausedSub : AlertChannel := { c6Sub 4 with paused := true }

/-- Witness for C7: streamer 42 goes live and gets cached and dispatched, and
sub_alert on the paused subscription sends nothing and creates nothing. -/
theorem pause_suppresses_dispatch_not_tracking_witness :
    (∃ row, (42, row) ∈ c7Res.live_streams ∧ row ∈ c7Res.dispatched ∧
      row.end_at = none) ∧
    sub_alert okEnv [⟨42, "alice", "Alice"⟩] c7PausedSub c6Stream [] 50 1
      = .ok ([], [], 1) :=
  ⟨pause_suppresses_dispatch_not_tracking.1 [42] 0 [] [] c7Api 100 6 c7Res 42
      (by rfl) (by decide),
   pause_suppresses_dispatch_not_tracking.2 okEnv [⟨42, "alice", "Alice"⟩]
      c7PausedSub c6Stream [] 50 1 rfl rfl⟩

/-! ## Alert resolution (cog.py, AlertCog.sub_resolve) -/

/-- External environment of one sub_resolve call: whether bot.get_channel
finds the channel, whether channel.fetch_message succeeds (message located),
and whether message.delete / message.edit succeed (false = the call raises
discord.HTTPException, which sub_resolve catches and logs in both cases, so
these two fields cannot influence the returned state). -/
structure ResolveEnv where
  channelOk : Bool
  fetchOk : Bool
  deleteOk : Bool
  editOk : Bool
  deriving Repr, DecidableEq

/-- `fetch_where(streamid=stream_data.streamid, subscriptionid=...)`:
the pair's alert rows in table order. -/
def fetchPairAlerts (stream : Stream) (sub : AlertChannel)
    (alerts : List StreamAlert) : List StreamAlert :=
  alerts.filter (pairP stream.streamid sub.subscriptionid)

/-- `alert.update(resolved_at=utc_now())` as a row transformation on the
alerts table: sets resolved_at on the row with the given alertid. -/
def updF (aid now : Nat) (a : StreamAlert) : StreamAlert :=
  if a.alertid == aid then { a with resolved_at := some now } else a

/-- AlertCog.sub_resolve (cog.py lines 269-341): returns the alerts table and
the attempted message mutations (attempts are recorded whether or not the
delete/edit call fails, since failures are caught). -/
def sub_resolve (env : ResolveEnv) (sub : AlertChannel) (stream : Stream)
    (alerts : List StreamAlert) (now : Nat) : List StreamAlert × List MsgEffect :=
  match (fetchPairAlerts stream sub alerts).head? with
  | none =>
    -- no active alerts found: no-op (logged)
    (alerts, [])
  | some alert =>
    if alert.resolved_at.isSome then
      -- alert was already resolved: no-op (logged)
      (alerts, [])
    else
      let effects :=
        if sub.end_delete || sub.end_message.isSome then
          if env.channelOk && env.fetchOk then
            if sub.end_delete then [MsgEffect.delete alert.messageid]
            else [MsgEffect.edit alert.messageid]
          else
            -- channel or message gone: tolerated, nothing to mutate
            []
        else
          -- explicitly nothing to do to the message
          []
      (alerts.map (updF alert.alertid now), effects)

/-- updF preserves the pair columns, so fetching after the update commutes. -/
theorem fetchPairAlerts_map_updF (stream : Stream) (sub : AlertChannel)
    (alerts : List StreamAlert) (aid now : Nat) :
    fetchPairAlerts stream sub (alerts.map (updF aid now))
      = (fetchPairAlerts stream sub alerts).map (updF aid now) := by
  unfold fetchPairAlerts
  rw [List.filter_map]
  have hpf : pairP stream.streamid sub.subscriptionid ∘ updF aid now
      = pairP stream.streamid sub.subscriptionid := by
    funext a
    show pairP stream.streamid sub.subscriptionid (updF aid now a)
        = pairP stream.streamid sub.subscriptionid a
    unfold updF pairP
    split <;> rfl
  rw [hpf]

/-- C4: resolution is idempotent.  With an existing Alert for the pair, the
second sub_resolve call returns the first call's state unchanged and performs
no destination-side mutation; the first call performs at most one mutation,
and after it the pair's first alert has its resolved time set. -/
theorem sub_resolve_idempotent (env₁ env₂ : ResolveEnv) (sub : AlertChannel)
    (stream : Stream) (alerts : List StreamAlert) (now₁ now₂ : Nat)
    (hpair : fetchPairAlerts stream sub alerts ≠ []) :
    sub_resolve env₂ sub stream (sub_resolve env₁ sub stream alerts now₁).1 now₂
        = ((sub_resolve env₁ sub stream alerts now₁).1, []) ∧
    (sub_resolve env₁ sub stream alerts now₁).2.length ≤ 1 ∧
    ∃ a, (fetchPairAlerts stream sub
        (sub_resolve env₁ sub stream alerts now₁).1).head? = some a ∧
      a.resolved_at.isSome = true := by
  cases hh : (fetchPairAlerts stream sub alerts).head? with
  | none => exact absurd (List.head?_eq_none_iff.mp hh) hpair
  | some a₀ =>
    cases ha : a₀.resolved_at.isSome with
    | true =>
      constructor
      · simp [sub_resolve, hh, ha]
      constructor
      · simp [sub_resolve, hh, ha]
      · exact ⟨a₀, by simp [sub_resolve, hh, ha], ha⟩
    | false =>
      have hs₁ : (sub_resolve env₁ sub stream alerts now₁).1
          = alerts.map (updF a₀.alertid now₁) := by
        simp [sub_resolve, hh, ha]
      have hfetch₁ : (fetchPairAlerts stream sub
          (sub_resolve env₁ sub stream alerts now₁).1).head?
            = some (updF a₀.alertid now₁ a₀) := by
        rw [hs₁, fetchPairAlerts_map_updF, List.head?_map, hh]
        rfl
      have hupd : (updF a₀.alertid now₁ a₀).resolved_at.isSome = true := by
        unfold updF
        simp
      refine ⟨?_, ?_, updF a₀.alertid now₁ a₀, hfetch₁, hupd⟩
      · rw [sub_resolve, hfetch₁]
        simp [hupd]
      · simp only [sub_resolve, hh, ha]
        repeat' split
        all_goals simp_all

/-- Witness for C4: resolving the open (8, 2) alert twice, with all mutation
calls succeeding, yields the resolved table, no second-call effects, at most
one first-call mutation, and a set resolved time. -/
theorem sub_resolve_idempotent_witness :
    sub_resolve ⟨true, true, true, true⟩ (c6Sub 2) c6Stream
        (sub_resolve ⟨true, true, true, true⟩ (c6Sub 2) c6Stream
          [⟨1, 8, 2, 50, 77, none⟩] 60).1 61
      = ((sub_resolve ⟨true, true, true, true⟩ (c6Sub 2) c6Stream
          [⟨1, 8, 2, 50, 77, none⟩] 60).1, []) ∧
    (sub_resolve ⟨true, true, true, true⟩ (c6Sub 2) c6Stream
        [⟨1, 8, 2, 50, 77, none⟩] 60).2.length ≤ 1 ∧
    ∃ a, (fetchPairAlerts c6Stream (c6Sub 2)
        (sub_resolve ⟨true, true, true, true⟩ (c6Sub 2) c6Stream
          [⟨1, 8, 2, 50, 77, none⟩] 60).1).head? = some a ∧
      a.resolved_at.isSome = true :=
  sub_resolve_idempotent ⟨true, true, true, true⟩ ⟨true, true, true, true⟩
    (c6Sub 2) c6Stream [⟨1, 8, 2, 50, 77, none⟩] 60 61 (by decide)

/-- C5: for an unresolved first pair alert, sub_resolve persists
resolved_at = now whatever the environment does — channel gone, message gone,
or failing delete/edit included. -/
theorem sub_resolve_always_resolves (env : ResolveEnv) (sub : AlertChannel)
    (stream : Stream) (alerts : List StreamAlert) (now : Nat) (a₀ : StreamAlert)
    (hh : (fetchPairAlerts stream sub alerts).head? = some a₀)
    (hunres : a₀.resolved_at = none) :
    { a₀ with resolved_at := some now } ∈ (sub_resolve env sub stream alerts now).1 := by
  have ha : a₀.resolved_at.isSome = false := by rw [hunres]; rfl
  have hmem : a₀ ∈ alerts :=
    List.mem_of_mem_filter (List.mem_of_mem_head? hh)
  have hs : (sub_resolve env sub stream alerts now).1
      = alerts.map (updF a₀.alertid now) := by
    simp [sub_resolve, hh, ha]
  rw [hs]
  refine List.mem_map.mpr ⟨a₀, hmem, ?_⟩
  unfold updF
  simp

/-- Witness for C5: with channel and message both gone and failing calls, the
(8, 2) alert still gets resolved_at = 60. -/
theorem sub_resolve_always_resolves_witness :
    ({ alertid := 1, streamid := 8, subscriptionid := 2, sent_at := 50,
       messageid := 77, resolved_at := some 60 } : StreamAlert)
      ∈ (sub_resolve ⟨false, false, false, false⟩ (c6Sub 2) c6Stream
          [⟨1, 8, 2, 50, 77, none⟩] 60).1 :=
  sub_resolve_always_resolves ⟨false, false, false, false⟩ (c6Sub 2) c6Stream
    [⟨1, 8, 2, 50, 77, none⟩] 60 ⟨1, 8, 2, 50, 77, none⟩ (by decide) rfl

/-- C8: with end_delete set and an end message configured, a located message is
deleted and the edit is never attempted. -/
theorem sub_resolve_delete_precedence (env : ResolveEnv) (sub : AlertChannel)
    (stream : Stream) (alerts : List StreamAlert) (now : Nat) (a₀ : StreamAlert)
    (hdel : sub.end_delete = true) (_hmsg : sub.end_message.isSome = true)
    (hch : env.channelOk = true) (hf : env.fetchOk = true)
    (hh : (fetchPairAlerts stream sub alerts).head? = some a₀)
    (hunres : a₀.resolved_at = none) :
    (sub_resolve env sub stream alerts now).2 = [MsgEffect.delete a₀.messageid] ∧
    ∀ m, MsgEffect.edit m ∉ (sub_resolve env sub stream alerts now).2 := by
  have ha : a₀.resolved_at.isSome = false := by rw [hunres]; rfl
  have heff : (sub_resolve env sub stream alerts now).2
      = [MsgEffect.delete a₀.messageid] := by
    simp [sub_resolve, hh, ha, hdel, hch, hf]
  exact ⟨heff, fun m hm => by rw [heff] at hm; simp at hm⟩

/-- The C8 subscription: end_delete on and an end message configured. -/
def c8Sub : AlertChannel :=
  { c6Sub 2 with end_delete := true,
                 end_message := some "\x7b\"content\": \"ended\"\x7d" }

/-- Witness for C8: resolving the open (8, 2) alert under c8Sub deletes message
77 and never edits. -/
theorem sub_resolve_delete_precedence_witness :
    (sub_resolve ⟨true, true, true, true⟩ c8Sub c6Stream
        [⟨1, 8, 2, 50, 77, none⟩] 60).2 = [MsgEffect.delete 77] ∧
    ∀ m, MsgEffect.edit m ∉ (sub_resolve ⟨true, true, true, true⟩ c8Sub c6Stream
        [⟨1, 8, 2, 50, 77, none⟩] 60).2 :=
  sub_resolve_delete_precedence ⟨true, true, true, true⟩ c8Sub c6Stream
    [⟨1, 8, 2, 50, 77, none⟩] 60 ⟨1, 8, 2, 50, 77, none⟩
    rfl rfl rfl rfl (by decide) rfl

/-- C10: sub_resolve inspects only the first fetched Alert row of the pair;
every later row of the pair survives in the table unchanged (in particular its
resolved time is untouched), whatever its own resolution state. -/
theorem sub_resolve_ignores_later_pair_rows (env : ResolveEnv)
    (sub : AlertChannel) (stream : Stream) (alerts : List StreamAlert)
    (now : Nat) (a₀ a : StreamAlert) (rest : List StreamAlert)
    (hnodup : (alerts.map (fun x => x.alertid)).Nodup)
    (hfetch : fetchPairAlerts stream sub alerts = a₀ :: rest)
    (ha : a ∈ rest) :
    a ∈ (sub_resolve env sub stream alerts now).1 := by
  have hh : (fetchPairAlerts stream sub alerts).head? = some a₀ := by
    rw [hfetch]; rfl
  have hmem : a ∈ alerts :=
    List.mem_of_mem_filter (hfetch ▸ List.mem_cons_of_mem a₀ ha)
  cases hres : a₀.resolved_at.isSome with
  | true =>
    have : (sub_resolve env sub stream alerts now).1 = alerts := by
      simp [sub_resolve, hh, hres]
    rw [this]
    exact hmem
  | false =>
    have hs : (sub_resolve env sub stream alerts now).1
        = alerts.map (updF a₀.alertid now) := by
      simp [sub_resolve, hh, hres]
    have hsub : (fetchPairAlerts stream sub alerts).map (fun x => x.alertid)
        |>.Nodup :=
      (hnodup.sublist (List.Sublist.map _ (List.filter_sublist alerts)))
    rw [hfetch, List.map_cons, List.nodup_cons] at hsub
    have hne : a.alertid ≠ a₀.alertid := by
      intro h
      exact hsub.1 (h ▸ List.mem_map_of_mem (fun x => x.alertid) ha)
    rw [hs]
    refine List.mem_map.mpr ⟨a, hmem, ?_⟩
    unfold updF
    simp [hne]

/-- Witness for C10: with two alert rows for the (8, 2) pair, the second row
(alertid 9, still open) survives resolution unchanged. -/
theorem sub_resolve_ignores_later_pair_rows_witness :
    (⟨9, 8, 2, 51, 78, none⟩ : StreamAlert)
      ∈ (sub_resolve ⟨true, true, true, true⟩ (c6Sub 2) c6Stream
          [⟨1, 8, 2, 50, 77, none⟩, ⟨9, 8, 2, 51, 78, none⟩] 60).1 :=
  sub_resolve_ignores_later_pair_rows ⟨true, true, true, true⟩ (c6Sub 2) c6Stream
    [⟨1, 8, 2, 50, 77, none⟩, ⟨9, 8, 2, 51, 78, none⟩] 60
    ⟨1, 8, 2, 50, 77, none⟩ ⟨9, 8, 2, 51, 78, none⟩ [⟨9, 8, 2, 51, 78, none⟩]
    (by decide) (by decide) (by decide)

/-! ## Template formatting (settings.py, generate_formatter of AlertMessage and
AlertEndMessage) -/

/-- JSON-like message data tree: the nested structure of mappings, sequences
and primitives that the formatter walks. -/
inductive Node where
  | str : String → Node
  | num : Int → Node
  | arr : List Node → Node
  | obj : List (String × Node) → Node

/-- Fuel-driven scan behind replace_multiple; the fuel is set to the text
length, which every step strictly decreases, so it never runs out for the
formatter's nonempty placeholder keys. -/
def replaceFuel (mapping : List (String × String)) : Nat → List Char → List Char
  | _, [] => []
  | 0, l => l
  | fuel + 1, c :: rest =>
    match mapping.find? (fun p => p.1.data.isPrefixOf (c :: rest)) with
    | some p => p.2.data ++ replaceFuel mapping fuel (rest.drop (p.1.data.length - 1))
    | none => c :: replaceFuel mapping fuel rest

/-- Modelled from the spec: utils.lib.replace_multiple (imported by
settings.py, defined outside this repository) — simultaneous literal
replacement of every occurrence of each placeholder token by its bound value,
scanning left to right and consuming a matched token whole. -/
def replace_multiple (s : String) (mapping : List (String × String)) : String :=
  String.mk (replaceFuel mapping s.data.length s.data)

mutual

/-- Modelled from the spec: utils.lib.recurse_map (imported by settings.py,
defined outside this repository) — recursively visits every string-valued
leaf and applies f, leaving non-string leaves and the shape untouched. -/
def mapStrings (f : String → String) : Node → Node
  | .str s => .str (f s)
  | .num n => .num n
  | .arr l => .arr (mapStringsList f l)
  | .obj l => .obj (mapStringsObj f l)

/-- recurse_map over a sequence of nodes. -/
def mapStringsList (f : String → String) : List Node → List Node
  | [] => []
  | x :: xs => mapStrings f x :: mapStringsList f xs

/-- recurse_map over the entries of a mapping (keys untouched). -/
def mapStringsObj (f : String → String) :
    List (String × Node) → List (String × Node)
  | [] => []
  | (k, v) :: xs => (k, mapStrings f v) :: mapStringsObj f xs

end

/-- The live-message bindings (AlertMessage.generate_formatter,
settings.py lines 57-81). -/
def liveMapping (streamer : Streamer) (stream : Stream) : List (String × String) :=
  [("{display_name}", streamer.display_name),
   ("{login_name}", streamer.login_name),
   ("{channel_link}", "https://www.twitch.tv/" ++ streamer.login_name),
   ("{stream_start}", toString stream.start_at)]

/-- The end-message bindings (AlertEndMessage.generate_formatter, settings.py
lines 140-166).  The resolver only builds this formatter after the poller has
set end_at, so the source's int(stream.end_at.timestamp()) is defined; the
getD default is never reached on those calls. -/
def endMapping (streamer : Streamer) (stream : Stream) : List (String × String) :=
  [("{display_name}", streamer.display_name),
   ("{login_name}", streamer.login_name),
   ("{channel_link}", "https://www.twitch.tv/" ++ streamer.login_name),
   ("{stream_start}", toString stream.start_at),
   ("{stream_end}", toString (stream.end_at.getD 0))]

/-- The formatter closure returned by generate_formatter: on falsy input
(unset template, or an empty mapping) it yields no message; otherwise it
substitutes the bindings into every string leaf. -/
def formatMessage (mapping : List (String × String))
    (data_dict : Option (List (String × Node))) : Option (List (String × Node)) :=
  match data_dict with
  | none => none
  | some l =>
    if l.isEmpty then none
    else some (mapStringsObj (fun s => replace_multiple s mapping) l)

/-- C9: the formatter is deterministic — identical (template, bindings) inputs
produce identical output, for the live and the end bindings alike — and an
unset or empty template yields no message. -/
theorem formatter_deterministic_and_empty_is_none :
    (∀ (streamer : Streamer) (stream : Stream)
        (d₁ d₂ : Option (List (String × Node))), d₁ = d₂ →
      formatMessage (liveMapping streamer stream) d₁
          = formatMessage (liveMapping streamer stream) d₂ ∧
      formatMessage (endMapping streamer stream) d₁
          = formatMessage (endMapping streamer stream) d₂) ∧
    (∀ mapping : List (String × String),
      formatMessage mapping none = none ∧
      formatMessage mapping (some []) = none) := by
  constructor
  · rintro streamer stream d₁ d₂ rfl
    exact ⟨rfl, rfl⟩
  · intro mapping
    exact ⟨rfl, rfl⟩

/-- Witness for C9: determinism at a concrete template and the empty cases at
the empty mapping. -/
theorem formatter_deterministic_and_empty_is_none_witness :
    (formatMessage (liveMapping ⟨42, "alice", "Alice"⟩ c6Stream)
          (some [("content", Node.str "{display_name} is live")])
        = formatMessage (liveMapping ⟨42, "alice", "Alice"⟩ c6Stream)
          (some [("content", Node.str "{display_name} is live")]) ∧
      formatMessage (endMapping ⟨42, "alice", "Alice"⟩ c6Stream)
          (some [("content", Node.str "{display_name} is live")])
        = formatMessage (endMapping ⟨42, "alice", "Alice"⟩ c6Stream)
          (some [("content", Node.str "{display_name} is live")])) ∧
    (formatMessage [] none = none ∧ formatMessage [] (some []) = none) :=
  ⟨formatter_deterministic_and_empty_is_none.1 ⟨42, "alice", "Alice"⟩ c6Stream
      (some [("content", Node.str "{display_name} is live")])
      (some [("content", Node.str "{display_name} is live")]) rfl,
   formatter_deterministic_and_empty_is_none.2 []⟩

end StreamAlerts
